import Mathlib

/-!
Verification of the pricebook line-classification and routing engine
(`src/data/parse_pricebook.py`).

Strings are modelled as `List Char`; Python's `float` prices are modelled as
exact rationals (`ℚ`), which agrees with the code's behaviour on the decimal
strings the price pattern can produce; Python's unbounded `int` is `Int`.
Each definition below mirrors one function or constant of the source file and
keeps its name where Lean allows it.
-/

/-- Strings of the embedded program: lists of characters. -/
abbrev Str := List Char

/-- Whitespace characters recognised by Python's `str.strip` / `str.split` /
the regex class `\s` (ASCII fragment, which covers this program's inputs). -/
def isSpacePy (c : Char) : Bool :=
  c == ' ' || c == '\t' || c == '\n' || c == '\r' || c == '\x0b' || c == '\x0c'

/-- Python `str.strip()`: drop leading and trailing whitespace. -/
def trim (l : Str) : Str :=
  ((l.dropWhile isSpacePy).reverse.dropWhile isSpacePy).reverse

/-- Python `str.rstrip('0')`: drop trailing `'0'` characters. -/
def rstrip0 (l : Str) : Str :=
  (l.reverse.dropWhile (fun c => c == '0')).reverse

/-- Python `str.lower()` (ASCII fragment). -/
def lowerL (l : Str) : Str := l.map Char.toLower

/-- Python `str.upper()` (ASCII fragment). -/
def upperL (l : Str) : Str := l.map Char.toUpper

/-- Does `l` start with `p`? (helper for the substring test). -/
def startsWith : Str → Str → Bool
  | [], _ => true
  | _ :: _, [] => false
  | a :: as, b :: bs => a == b && startsWith as bs

/-- Python's substring operator `needle in hay`. -/
def isSubstr (needle : Str) : Str → Bool
  | [] => needle.isEmpty
  | c :: rest => startsWith needle (c :: rest) || isSubstr needle rest

/-- Helper for `splitWs`: walks the string holding the current token in
reverse in the accumulator, emitting it at each whitespace run. -/
def splitWsAux : Str → Str → List Str
  | acc, [] => if acc = [] then [] else [acc.reverse]
  | acc, c :: rest =>
    if isSpacePy c then
      if acc = [] then splitWsAux [] rest
      else acc.reverse :: splitWsAux [] rest
    else splitWsAux (c :: acc) rest

/-- Python `str.split()` with no separator: split on runs of whitespace,
discarding empty pieces. -/
def splitWs (l : Str) : List Str := splitWsAux [] l

/-- Numeric value of a digit string (how Python's `int` reads an
all-digit token). -/
def digitsToNat (l : Str) : Nat :=
  l.foldl (fun n c => 10 * n + (c.toNat - '0'.toNat)) 0

/-- Python `str.strip('"\'')` as applied to descriptions: drop leading and
trailing quote characters. -/
def stripQuotes (l : Str) : Str :=
  ((l.dropWhile (fun c => c == '"' || c == '\'')).reverse.dropWhile
      (fun c => c == '"' || c == '\'')).reverse

/-- The SectionTracker's state (`current_section` / `current_subsection`
in `parse_pdf`). -/
structure SectionState where
  currentSection : Str
  currentSubsection : Str
  deriving DecidableEq

/-- The record dictionary built by `parse_component_row` (Python keyword
`section` forces the `section_name`/`subsection_name` field spellings). -/
structure PriceRecord where
  section_name : Str
  subsection_name : Str
  component_id : Str
  description : Str
  selling_price_gbp : ℚ
  lead_time_days : Int
  deriving DecidableEq

/-- One entry of `FILE_MAPPING`: output filename with its section labels,
subsection labels and keywords. -/
structure FileRule where
  filename : Str
  sections : List Str
  subsections : List Str
  keywords : List Str
  deriving DecidableEq

/-- The `FILE_MAPPING` constant, in dict insertion order. -/
def FILE_MAPPING : List FileRule := [
  ⟨"core_packs.csv".toList,
    ["Core Packs".toList],
    ["Full System".toList, "Part System".toList],
    []⟩,
  ⟨"electrics_and_waste.csv".toList,
    ["Electrics/Waste/Filling Loops/GDA/Remote PRVs".toList, "Electrics".toList,
      "Waste".toList],
    ["Electrics/Waste/Filling Loops/GDA/Remote PRVs".toList],
    ["filling loop".toList, "remote prv".toList, "waste collection".toList,
      "electrics".toList]⟩,
  ⟨"controls_and_stats.csv".toList,
    ["Controls".toList, "Wiring Centres".toList, "Stats".toList, "Timers".toList,
      "Programmers".toList, "CO Alarms".toList],
    ["Controls ***UPGRADE ONLY JOBS".toList],
    ["wiring".toList, "stat".toList, "timer".toList, "programmer".toList,
      "thermostat".toList, "control".toList]⟩,
  ⟨"smart_hive.csv".toList,
    ["Smart / Hive".toList, "Hive".toList, "Smart".toList,
      "Hive Active Heating".toList, "Hive additional Products".toList,
      "Hive View".toList, "Hive TRV".toList, "Hive Hubs".toList],
    ["Hive Active Heating".toList, "Hive TRV".toList, "Hive Hubs".toList,
      "Product Bundles".toList, "Frames and Stand".toList, "Boiler IQ".toList],
    ["hive".toList, "boiler iq".toList]⟩,
  ⟨"boilers_combi_ng.csv".toList,
    ["Boilers".toList, "BOILERS".toList],
    ["Combi Natural Gas".toList],
    []⟩,
  ⟨"boilers_combi_lpg.csv".toList,
    ["Boilers".toList, "BOILERS".toList],
    ["Combi LPG".toList],
    []⟩,
  ⟨"boilers_other.csv".toList,
    ["Boilers".toList, "BOILERS".toList],
    ["System".toList, "Regular".toList, "System Natural Gas".toList,
      "System LPG".toList, "Regular Natural Gas".toList, "Regular LPG".toList,
      "Conventional Natural Gas".toList, "Conventional LPG".toList],
    []⟩,
  ⟨"heat_pumps_and_ashp_labour.csv".toList,
    ["Heat Pumps".toList, "ASHP".toList, "Air Source Heat Pump".toList],
    ["Radiator Installation Packs".toList, "Radiator Installation Bundles".toList,
      "Fire, Flue Liner, & Multipoint Installation Packs".toList,
      "Radiator Accessories".toList],
    ["heat pump".toList, "ashp".toList, "arothem".toList]⟩,
  ⟨"radiators_and_valves.csv".toList,
    ["Radiator Valves".toList, "Myson Radiators".toList, "Radiators".toList,
      "Price Test".toList],
    ["Radiator Valves".toList,
      "Powercleanse, Powerflush, Magnetic Filter, & Combisave".toList,
      "Stelrad Radiators".toList, "Myson Radiators".toList,
      "Radiator Placeholders".toList, "Classic Towel Warmers".toList],
    ["radiator".toList, "powerflush".toList, "stelrad".toList, "myson".toList,
      "towel warmer".toList]⟩,
  ⟨"flues_worcester.csv".toList,
    ["Worcester Combi Conventional and System Boilers".toList, "Flues".toList,
      "Worcester Flues".toList, "BOILERS".toList],
    ["Flue Components".toList, "Flue Components Continued".toList,
      "Worcester 440CDi Highflow".toList, "Vaillant EcoTec".toList],
    ["flue".toList, "plume".toList, "elbow".toList]⟩,
  ⟨"heat_pump_accessories.csv".toList,
    ["ASHP Accessories".toList, "Trunking".toList, "Insulation".toList,
      "Mixergy".toList, "Buffer Tanks".toList],
    [],
    ["trunking".toList, "insulation".toList, "mixergy".toList,
      "buffer tank".toList]⟩,
  ⟨"extras_and_charges.csv".toList,
    ["Extras".toList, "Delivery".toList, "Assessment".toList,
      "Premium Install".toList],
    [],
    ["delivery charge".toList, "assessment".toList, "premium install".toList,
      "cashback".toList]⟩,
  ⟨"price_alignment.csv".toList,
    ["Price Alignment".toList],
    [],
    []⟩]

/-- Uppercase ASCII letter test (`[A-Z]` of the component-id regex). -/
def isUpperAZ (c : Char) : Bool := 'A'.toNat ≤ c.toNat && c.toNat ≤ 'Z'.toNat

/-- Matcher for `COMPONENT_ID_PATTERN = ^[A-Z][A-Z0-9]*\d+[A-Z]?$`:
one uppercase letter, then a string over `[A-Z0-9]` that ends in a digit or
in a digit followed by one uppercase letter (the `[A-Z0-9]*\d+[A-Z]?` part). -/
def matchesCID (l : Str) : Bool :=
  match l with
  | [] => false
  | c :: rest =>
    isUpperAZ c && rest.all (fun x => isUpperAZ x || x.isDigit) &&
      (match rest.reverse with
       | [] => false
       | [a] => a.isDigit
       | a :: b :: _ => a.isDigit || (isUpperAZ a && b.isDigit))

/-- The `is_component_id` function: falsy-empty guard, strip, regex match. -/
def is_component_id (text : Str) : Bool :=
  if text = [] then false else matchesCID (trim text)

/-- The curated `heading_keywords` list inside `is_heading`. -/
def HEADING_KEYWORDS : List Str :=
  ["Core Packs".toList, "Boiler".toList, "Heat Pump".toList, "ASHP".toList,
   "Radiator".toList, "Hive".toList, "Smart".toList, "Flue".toList,
   "Extra".toList, "Price Alignment".toList, "Combi".toList, "System".toList,
   "Regular".toList, "Natural Gas".toList, "LPG".toList, "Controls".toList,
   "Electrics".toList, "Waste".toList, "Filling Loop".toList,
   "Worcester".toList, "Vaillant".toList, "Active Heating".toList,
   "TRV".toList, "Full System".toList, "Part System".toList, "Wiring".toList,
   "Stats".toList, "Timer".toList, "Programmer".toList]

/-- The `is_heading` function: a stripped line is a heading when it is not a
component id, is at most 100 characters, has no `£`, and after dropping
trailing `'0'`s contains one of the curated keywords case-insensitively. -/
def is_heading (text : Str) : Bool :=
  if text = [] then false else
  let t := trim text
  if is_component_id t then false else
  if t.length > 100 then false else
  if t.contains '£' then false else
  let text_clean := trim (rstrip0 t)
  HEADING_KEYWORDS.any (fun k => isSubstr (lowerL k) (lowerL text_clean))

/-- Character class `[0-9,]` of `PRICE_PATTERN`. -/
def isPriceChar (c : Char) : Bool := c.isDigit || c == ','

/-- Attempt to match `PRICE_PATTERN = £\s*([0-9,]+\.?\d*)` anchored at the
head of `l`; returns the captured group on success. -/
def priceMatchAt : Str → Option Str
  | '£' :: rest =>
    let r1 := rest.dropWhile isSpacePy
    let grp1 := r1.takeWhile isPriceChar
    if grp1 = [] then none
    else match r1.dropWhile isPriceChar with
      | '.' :: r3 => some (grp1 ++ '.' :: r3.takeWhile Char.isDigit)
      | _ => some grp1
  | _ => none

/-- `PRICE_PATTERN.search`: leftmost match, returning the index where the
match starts (`match.start()`) and the captured group (`match.group(1)`). -/
def priceSearch : Str → Option (Nat × Str)
  | [] => none
  | c :: rest =>
    match priceMatchAt (c :: rest) with
    | some g => some (0, g)
    | none => (priceSearch rest).map (fun ig => (ig.1 + 1, ig.2))

/-- Python `float(s)` restricted to the strings reachable here (digits with at
most one decimal point; at least one digit required): `none` models
`ValueError`. -/
def parseFloat? (l : Str) : Option ℚ :=
  let ip := l.takeWhile Char.isDigit
  match l.dropWhile Char.isDigit with
  | [] => if ip = [] then none else some (digitsToNat ip : ℚ)
  | '.' :: frac =>
    if frac.all Char.isDigit && (ip ≠ [] || frac ≠ []) then
      -- the decimal value ip.frac, written over the power-of-ten denominator
      some (mkRat (digitsToNat ip * 10 ^ frac.length + digitsToNat frac) (10 ^ frac.length))
    else none
  | _ => none

/-- The `extract_price` function: search for the price pattern, strip the
thousands separators and parse; every failure yields `0.0`. -/
def extract_price (text : Str) : ℚ :=
  match priceSearch text with
  | none => 0
  | some ig =>
    match parseFloat? (ig.2.filter (fun c => c ≠ ',')) with
    | some q => q
    | none => 0

/-- The `extract_lead_time` function: the final whitespace token when it is
all digits, else `0`. -/
def extract_lead_time (text : Str) : Int :=
  match (splitWs (trim text)).getLast? with
  | some last => if last ≠ [] && last.all Char.isDigit then (digitsToNat last : Int) else 0
  | none => 0

/-- The `parse_component_row` function. -/
def parse_component_row (text0 : Str) (current_section current_subsection : Str) :
    Option PriceRecord :=
  let text := trim text0
  let parts := splitWs text
  if parts.length < 3 then none else
  match parts with
  | [] => none
  | component_id :: _ =>
    if !is_component_id component_id then none else
    let price := extract_price text
    if price = 0 then none else
    let lead_time := extract_lead_time text
    match priceSearch text with
    | none => none
    | some ig =>
      let desc0 := trim ((text.drop component_id.length).take (ig.1 - component_id.length))
      some ⟨current_section, current_subsection, component_id,
        stripQuotes desc0, price, lead_time⟩

/-- Tier-1 section test of `determine_output_file`: bidirectional
case-insensitive containment against a rule's section labels. -/
def sectionHit (sections : List Str) (sec : Str) : Bool :=
  sections.any (fun s => isSubstr (lowerL s) (lowerL sec) || isSubstr (lowerL sec) (lowerL s))

/-- Subsection test of `determine_output_file`: bidirectional
case-insensitive containment against a rule's subsection labels. -/
def subsectionHit (subs : List Str) (sub : Str) : Bool :=
  subs.any (fun ss => isSubstr (lowerL ss) (lowerL sub) || isSubstr (lowerL sub) (lowerL ss))

/-- Tier-3 keyword test of `determine_output_file`: keyword is a
case-insensitive substring of the subsection. -/
def keywordHit (kws : List Str) (sub : Str) : Bool :=
  kws.any (fun k => isSubstr (lowerL k) (lowerL sub))

/-- First pass of `determine_output_file` (section + subsection). -/
def firstPass : List FileRule → Str → Str → Option Str
  | [], _, _ => none
  | r :: rs, sec, sub =>
    if sectionHit r.sections sec then
      if r.subsections = [] then some r.filename
      else if subsectionHit r.subsections sub then some r.filename
      else firstPass rs sec sub
    else firstPass rs sec sub

/-- Second pass of `determine_output_file` (subsection only). -/
def secondPass : List FileRule → Str → Option Str
  | [], _ => none
  | r :: rs, sub =>
    if r.subsections ≠ [] then
      if subsectionHit r.subsections sub then some r.filename
      else secondPass rs sub
    else secondPass rs sub

/-- Third pass of `determine_output_file` (keywords against subsection). -/
def thirdPass : List FileRule → Str → Option Str
  | [], _ => none
  | r :: rs, sub =>
    if r.keywords ≠ [] then
      if keywordHit r.keywords sub then some r.filename
      else thirdPass rs sub
    else thirdPass rs sub

/-- The `determine_output_file` function: three cascading passes over
`FILE_MAPPING`, falling back to `unclassified.csv`. -/
def determine_output_file (sec sub : Str) : Str :=
  match firstPass FILE_MAPPING sec sub with
  | some f => f
  | none =>
    match secondPass FILE_MAPPING sub with
    | some f => f
    | none =>
      match thirdPass FILE_MAPPING sub with
      | some f => f
      | none => "unclassified.csv".toList

/-- The `major_sections` list inside `parse_pdf`. -/
def MAJOR_SECTIONS : List Str :=
  ["BOILERS".toList, "CORE PACKS".toList, "HEAT PUMPS".toList, "EXTRAS".toList,
   "PRICE ALIGNMENT".toList, "SMART".toList, "HIVE".toList]

/-- The SectionTracker transition of `parse_pdf`'s heading branch: clean the
heading label, then either start a new major section or update the
subsection. -/
def trackerStep (s : SectionState) (line : Str) : SectionState :=
  let line_clean := trim (rstrip0 line)
  let is_major := MAJOR_SECTIONS.any (fun ms => isSubstr ms (upperL line_clean))
  if is_major || s.currentSection.isEmpty then ⟨line_clean, []⟩
  else ⟨s.currentSection, line_clean⟩

/-- Result of the LineClassifier. -/
inductive LineClass where
  | skip
  | heading
  | dataCandidate
  deriving DecidableEq

/-- The per-line classification of `parse_pdf`'s loop: skip blank lines and
the lone `"0"` artifact, then split on `is_heading`. -/
def classify (line0 : Str) : LineClass :=
  let line := trim line0
  if line = [] || line = ['0'] then LineClass.skip
  else if is_heading line then LineClass.heading
  else LineClass.dataCandidate

/-- One iteration of `parse_pdf`'s loop: returns the new section state and,
for a parsed row, the routed `(output file, record)` pair. -/
def lineStep (s : SectionState) (line0 : Str) : SectionState × Option (Str × PriceRecord) :=
  let line := trim line0
  match classify line0 with
  | LineClass.skip => (s, none)
  | LineClass.heading => (trackerStep s line, none)
  | LineClass.dataCandidate =>
    match parse_component_row line s.currentSection s.currentSubsection with
    | none => (s, none)
    | some row => (s, some (determine_output_file row.section_name row.subsection_name, row))

/-- The whole `parse_pdf` pipeline on a line stream: fold `lineStep` from the
empty section state, collecting the routed records in document order. -/
def parse_pdf_lines (lines : List Str) : List (Str × PriceRecord) :=
  (lines.foldl
    (fun acc line =>
      match lineStep acc.1 line with
      | (s', none) => (s', acc.2)
      | (s', some fr) => (s', acc.2 ++ [fr]))
    ((⟨[], []⟩ : SectionState), ([] : List (Str × PriceRecord)))).2

/-! ### Helper lemmas about the string utilities -/

theorem dropWhile_self (p : Char → Bool) (l : Str) :
    (l.dropWhile p).dropWhile p = l.dropWhile p := by
  induction l with
  | nil => rfl
  | cons a t ih =>
    by_cases h : p a
    · simp [List.dropWhile_cons, h, ih]
    · simp [List.dropWhile_cons, h]

theorem dropWhile_head_not (p : Char → Bool) (l : Str) (a : Char) (t : Str)
    (h : l.dropWhile p = a :: t) : p a = false := by
  induction l with
  | nil => simp at h
  | cons b t' ih =>
    by_cases hb : p b
    · rw [List.dropWhile_cons_of_pos hb] at h
      exact ih h
    · rw [List.dropWhile_cons_of_neg hb] at h
      injection h with h1 _
      subst h1
      simpa using hb

theorem rev_dropWhile_split (p : Char → Bool) (m : Str) :
    m = (m.reverse.dropWhile p).reverse ++ (m.reverse.takeWhile p).reverse := by
  conv_lhs => rw [← List.reverse_reverse m,
    ← List.takeWhile_append_dropWhile (p := p) (l := m.reverse)]
  rw [List.reverse_append]

theorem trim_dropWhile (l : Str) : (trim l).dropWhile isSpacePy = trim l := by
  cases htr : trim l with
  | nil => rfl
  | cons a t =>
    have hdec := rev_dropWhile_split isSpacePy (l.dropWhile isSpacePy)
    rw [show ((l.dropWhile isSpacePy).reverse.dropWhile isSpacePy).reverse = trim l from rfl,
      htr] at hdec
    have ha : isSpacePy a = false := by
      apply dropWhile_head_not isSpacePy (l.dropWhile isSpacePy) a
        (t ++ ((l.dropWhile isSpacePy).reverse.takeWhile isSpacePy).reverse)
    -- dropWhile is idempotent, so dropping again from `l.dropWhile` is the identity
      rw [dropWhile_self]
      exact hdec
    rw [List.dropWhile_cons_of_neg (by simp [ha])]

theorem trim_trim (l : Str) : trim (trim l) = trim l := by
  calc trim (trim l)
      = (((trim l).dropWhile isSpacePy).reverse.dropWhile isSpacePy).reverse := rfl
    _ = ((trim l).reverse.dropWhile isSpacePy).reverse := by rw [trim_dropWhile]
    _ = (((l.dropWhile isSpacePy).reverse.dropWhile isSpacePy).reverse.reverse.dropWhile
          isSpacePy).reverse := rfl
    _ = (((l.dropWhile isSpacePy).reverse.dropWhile isSpacePy).dropWhile isSpacePy).reverse := by
          rw [List.reverse_reverse]
    _ = ((l.dropWhile isSpacePy).reverse.dropWhile isSpacePy).reverse := by rw [dropWhile_self]
    _ = trim l := rfl

theorem startsWith_nil (l : Str) : startsWith [] l = true := by
  cases l <;> rfl

theorem isSubstr_nil (hay : Str) : isSubstr [] hay = true := by
  induction hay with
  | nil => rfl
  | cons c r ih => simp [isSubstr, startsWith_nil]

/-! ### Helper lemmas about the router passes -/

theorem subsectionHit_empty (subs : List Str) (h : subs ≠ []) :
    subsectionHit subs [] = true := by
  cases subs with
  | nil => exact absurd rfl h
  | cons s t => simp [subsectionHit, lowerL, isSubstr_nil]

theorem firstPass_empty_sub (rules : List FileRule) (sec : Str) :
    firstPass rules sec [] =
      (rules.find? (fun r => sectionHit r.sections sec)).map FileRule.filename := by
  induction rules with
  | nil => rfl
  | cons r rs ih =>
    by_cases h : sectionHit r.sections sec = true
    · rw [List.find?_cons_of_pos (p := fun x => sectionHit x.sections sec) rs h]
      simp only [firstPass, h, if_true]
      by_cases hs : r.subsections = []
      · simp [hs]
      · simp [hs, subsectionHit_empty _ hs]
    · rw [List.find?_cons_of_neg (p := fun x => sectionHit x.sections sec) rs (by simpa using h)]
      simp only [firstPass]
      rw [if_neg h]
      exact ih

theorem firstPass_mem (rules : List FileRule) (sec sub f : Str)
    (h : firstPass rules sec sub = some f) : ∃ r ∈ rules, f = r.filename := by
  induction rules with
  | nil => simp [firstPass] at h
  | cons r rs ih =>
    simp only [firstPass] at h
    by_cases h1 : sectionHit r.sections sec = true
    · rw [if_pos h1] at h
      by_cases h2 : r.subsections = []
      · rw [if_pos h2] at h
        injection h with h4
        exact ⟨r, List.mem_cons_self r rs, h4.symm⟩
      · rw [if_neg h2] at h
        by_cases h3 : subsectionHit r.subsections sub = true
        · rw [if_pos h3] at h
          injection h with h4
          exact ⟨r, List.mem_cons_self r rs, h4.symm⟩
        · rw [if_neg h3] at h
          obtain ⟨r', hr', hf⟩ := ih h
          exact ⟨r', List.mem_cons_of_mem _ hr', hf⟩
    · rw [if_neg h1] at h
      obtain ⟨r', hr', hf⟩ := ih h
      exact ⟨r', List.mem_cons_of_mem _ hr', hf⟩

theorem secondPass_mem (rules : List FileRule) (sub f : Str)
    (h : secondPass rules sub = some f) : ∃ r ∈ rules, f = r.filename := by
  induction rules with
  | nil => simp [secondPass] at h
  | cons r rs ih =>
    simp only [secondPass] at h
    by_cases h1 : r.subsections = []
    · rw [if_neg (by simp [h1])] at h
      obtain ⟨r', hr', hf⟩ := ih h
      exact ⟨r', List.mem_cons_of_mem _ hr', hf⟩
    · rw [if_pos h1] at h
      by_cases h2 : subsectionHit r.subsections sub = true
      · rw [if_pos h2] at h
        injection h with h4
        exact ⟨r, List.mem_cons_self r rs, h4.symm⟩
      · rw [if_neg h2] at h
        obtain ⟨r', hr', hf⟩ := ih h
        exact ⟨r', List.mem_cons_of_mem _ hr', hf⟩

theorem thirdPass_mem (rules : List FileRule) (sub f : Str)
    (h : thirdPass rules sub = some f) : ∃ r ∈ rules, f = r.filename := by
  induction rules with
  | nil => simp [thirdPass] at h
  | cons r rs ih =>
    simp only [thirdPass] at h
    by_cases h1 : r.keywords = []
    · rw [if_neg (by simp [h1])] at h
      obtain ⟨r', hr', hf⟩ := ih h
      exact ⟨r', List.mem_cons_of_mem _ hr', hf⟩
    · rw [if_pos h1] at h
      by_cases h2 : keywordHit r.keywords sub = true
      · rw [if_pos h2] at h
        injection h with h4
        exact ⟨r, List.mem_cons_self r rs, h4.symm⟩
      · rw [if_neg h2] at h
        obtain ⟨r', hr', hf⟩ := ih h
        exact ⟨r', List.mem_cons_of_mem _ hr', hf⟩

theorem thirdPass_none_keyword (rules : List FileRule) (sub : Str)
    (h : thirdPass rules sub = none) (r : FileRule) (hr : r ∈ rules)
    (k : Str) (hk : k ∈ r.keywords) : isSubstr (lowerL k) (lowerL sub) = false := by
  induction rules with
  | nil => simp at hr
  | cons r0 rs ih =>
    simp only [thirdPass] at h
    rcases List.mem_cons.mp hr with heq | hr'
    · subst heq
      have hne : r.keywords ≠ [] := by
        intro habs
        rw [habs] at hk
        simp at hk
      rw [if_pos hne] at h
      by_cases hh : keywordHit r.keywords sub = true
      · rw [if_pos hh] at h
        simp at h
      · rw [if_neg hh] at h
        have := (Bool.not_eq_true _).mp hh
        rw [keywordHit, List.any_eq_false] at this
        simpa using this k hk
    · by_cases h1 : r0.keywords = []
      · rw [if_neg (by simp [h1])] at h
        exact ih h hr'
      · rw [if_pos h1] at h
        by_cases hh : keywordHit r0.keywords sub = true
        · rw [if_pos hh] at h
          simp at h
        · rw [if_neg hh] at h
          exact ih h hr'

theorem filename_not_unclassified :
    ∀ r ∈ FILE_MAPPING, r.filename ≠ "unclassified.csv".toList := by decide

/-! ### Helper lemmas about prices, lead times and the classifier -/

theorem parseFloat?_nonneg (l : Str) (q : ℚ) (h : parseFloat? l = some q) : 0 ≤ q := by
  simp only [parseFloat?] at h
  split at h
  · split at h
    · simp at h
    · injection h with h
      subst h
      positivity
  · split at h
    · injection h with h
      subst h
      rw [Rat.mkRat_eq_div]
      positivity
    · simp at h
  · simp at h

theorem extract_price_nonneg (text : Str) : 0 ≤ extract_price text := by
  simp only [extract_price]
  split
  · exact le_refl 0
  · split
    · next q hq => exact parseFloat?_nonneg _ q hq
    · exact le_refl 0

theorem extract_lead_time_nonneg (text : Str) : 0 ≤ extract_lead_time text := by
  simp only [extract_lead_time]
  split
  · split
    · exact Int.natCast_nonneg _
    · exact le_refl 0
  · exact le_refl 0

theorem matchesCID_ne_nil_ne_zero (t : Str) (h : matchesCID t = true) :
    t ≠ [] ∧ t ≠ ['0'] := by
  constructor
  · intro habs
    rw [habs] at h
    simp [matchesCID] at h
  · intro habs
    rw [habs] at h
    simp [matchesCID, isUpperAZ] at h

theorem is_component_id_trim (l : Str) : is_component_id (trim l) = is_component_id l := by
  simp only [is_component_id, trim_trim]
  by_cases h0 : l = []
  · subst h0
    rfl
  · rw [if_neg h0]
    by_cases h1 : trim l = []
    · rw [if_pos h1, h1]
      rfl
    · rw [if_neg h1]

theorem is_heading_not_cid (t : Str) (hh : is_heading t = true) :
    is_component_id (trim t) = false := by
  simp only [is_heading] at hh
  by_cases h0 : t = []
  · rw [if_pos h0] at hh
    simp at hh
  · rw [if_neg h0] at hh
    by_cases h1 : is_component_id (trim t) = true
    · rw [if_pos h1] at hh
      simp at hh
    · simpa using h1

/-! ### Claim theorems -/

/-- Claim C1 (code bug): feeding the pipeline the three-line sequence
`["BOILERS0", "Combi Natural Gas0", "AB123 Worcester Combi £850.00 10"]` does
NOT route the record to `boilers_combi_ng`: the heading `"BOILERS0"` matches
the component-id regex (uppercase word ending in a digit), so `is_heading`
rejects it and the section state never becomes `"BOILERS"`; the single
record is produced with section `"Combi Natural Gas"`, empty subsection, and
is routed to `core_packs.csv`, contradicting the claimed end-to-end result
even though componentId, price and lead time come out as claimed. -/
theorem c1_pipeline_bug_eval :
    parse_pdf_lines ["BOILERS0".toList, "Combi Natural Gas0".toList,
        "AB123 Worcester Combi £850.00 10".toList] =
      [("core_packs.csv".toList,
        { section_name := "Combi Natural Gas".toList, subsection_name := [],
          component_id := "AB123".toList, description := "Worcester Combi".toList,
          selling_price_gbp := 850, lead_time_days := 10 })] := by
  decide

/-- Claim C2, counterexample: the pair `section="Extras"`, `subsection="Hive"`
has a subsection containing `"hive"` case-insensitively, yet the Router
resolves it at tier 1 to `extras_and_charges.csv`, not `smart_hive.csv`. -/
theorem c2_hive_counterexample :
    isSubstr "hive".toList (lowerL "Hive".toList) = true ∧
    determine_output_file "Extras".toList "Hive".toList = "extras_and_charges.csv".toList ∧
    determine_output_file "Extras".toList "Hive".toList ≠ "smart_hive.csv".toList := by
  decide

/-- Claim C2 as amended: for every section and every subsection containing
`"hive"` case-insensitively, the Router never returns the unclassified
fallback (the smart_hive keyword rule guarantees a tier-3 match at the
latest), though an earlier-matching rule may claim the pair instead of
smart_hive. -/
theorem c2_hive_not_unclassified (sec sub : Str)
    (h : isSubstr "hive".toList (lowerL sub) = true) :
    determine_output_file sec sub ≠ "unclassified.csv".toList := by
  intro habs
  simp only [determine_output_file] at habs
  cases h1 : firstPass FILE_MAPPING sec sub with
  | some f =>
    rw [h1] at habs
    obtain ⟨r, hr, rfl⟩ := firstPass_mem _ _ _ _ h1
    exact filename_not_unclassified r hr habs
  | none =>
    rw [h1] at habs
    cases h2 : secondPass FILE_MAPPING sub with
    | some f =>
      rw [h2] at habs
      obtain ⟨r, hr, rfl⟩ := secondPass_mem _ _ _ h2
      exact filename_not_unclassified r hr habs
    | none =>
      rw [h2] at habs
      cases h3 : thirdPass FILE_MAPPING sub with
      | some f =>
        rw [h3] at habs
        obtain ⟨r, hr, rfl⟩ := thirdPass_mem _ _ _ h3
        exact filename_not_unclassified r hr habs
      | none =>
        have hsm := thirdPass_none_keyword FILE_MAPPING sub h3
          (FILE_MAPPING.get ⟨3, by decide⟩) (List.get_mem FILE_MAPPING 3 (by decide))
          "hive".toList (by decide)
        rw [show lowerL "hive".toList = "hive".toList from by decide] at hsm
        rw [hsm] at h
        exact absurd h (by simp)

/-- Claim C2 witness: a concrete pair where the amended theorem applies. -/
theorem c2_hive_witness :
    determine_output_file "zzz".toList "hive".toList ≠ "unclassified.csv".toList :=
  c2_hive_not_unclassified "zzz".toList "hive".toList (by decide)

/-- Claim C3: with an empty subsection the Router never returns the
unclassified fallback; when no rule's section labels match the section the
result is `core_packs.csv` (the first rule with subsection labels, reached in
tier 2); and when some rule's section labels match, the first such rule in
table order wins immediately in tier 1. -/
theorem c3_empty_subsection (sec : Str) :
    determine_output_file sec [] ≠ "unclassified.csv".toList
  ∧ ((∀ r ∈ FILE_MAPPING, sectionHit r.sections sec = false) →
      determine_output_file sec [] = "core_packs.csv".toList)
  ∧ (∀ r : FileRule, FILE_MAPPING.find? (fun x => sectionHit x.sections sec) = some r →
      determine_output_file sec [] = r.filename) := by
  have hfp := firstPass_empty_sub FILE_MAPPING sec
  refine ⟨?_, ?_, ?_⟩
  · cases hf : FILE_MAPPING.find? (fun x => sectionHit x.sections sec) with
    | none =>
      rw [hf] at hfp
      simp only [Option.map_none'] at hfp
      simp only [determine_output_file, hfp]
      decide
    | some r =>
      rw [hf] at hfp
      simp only [Option.map_some'] at hfp
      simp only [determine_output_file, hfp]
      exact filename_not_unclassified r (List.mem_of_find?_eq_some hf)
  · intro hall
    have hf : FILE_MAPPING.find? (fun x => sectionHit x.sections sec) = none :=
      List.find?_eq_none.mpr (fun x hx => by simp [hall x hx])
    rw [hf] at hfp
    simp only [Option.map_none'] at hfp
    simp only [determine_output_file, hfp]
    decide
  · intro r hf
    rw [hf] at hfp
    simp only [Option.map_some'] at hfp
    simp only [determine_output_file, hfp]

/-- Claim C3 witness: a section matching no rule goes to `core_packs.csv`;
a section matching the boiler rules goes to the first matching rule. -/
theorem c3_empty_subsection_witness :
    determine_output_file "QQQQ".toList [] = "core_packs.csv".toList ∧
    determine_output_file "BOILERS".toList [] = "boilers_combi_ng.csv".toList := by
  constructor
  · exact (c3_empty_subsection "QQQQ".toList).2.1 (by decide)
  · exact (c3_empty_subsection "BOILERS".toList).2.2 (FILE_MAPPING.get ⟨4, by decide⟩) (by decide)

/-- Claim C4: a line the classifier marks `Heading` never matches the
component-identifier shape, and a line matching that shape is always
classified `DataCandidate`. -/
theorem c4_heading_never_component_id (line : Str) :
    (classify line = LineClass.heading → is_component_id line = false)
  ∧ (is_component_id line = true → classify line = LineClass.dataCandidate) := by
  constructor
  · intro h
    by_cases h1 : is_heading (trim line) = true
    · have h2 := is_heading_not_cid (trim line) h1
      rwa [is_component_id_trim, is_component_id_trim] at h2
    · exfalso
      simp only [classify] at h
      split at h <;> simp_all
  · intro h
    have hne : line ≠ [] := by
      intro habs
      rw [habs] at h
      simp [is_component_id] at h
    have hm : matchesCID (trim line) = true := by
      simp only [is_component_id] at h
      rwa [if_neg hne] at h
    obtain ⟨ht1, ht2⟩ := matchesCID_ne_nil_ne_zero (trim line) hm
    have hcid_tl : is_component_id (trim line) = true := by
      simp only [is_component_id]
      rw [if_neg ht1, trim_trim]
      exact hm
    have hih : is_heading (trim line) = false := by
      simp only [is_heading]
      have hc2 : is_component_id (trim (trim line)) = true := by
        rw [is_component_id_trim]
        exact hcid_tl
      rw [if_neg ht1, if_pos hc2]
    simp only [classify]
    rw [if_neg (by simp [ht1, ht2]), if_neg (by simp [hih])]

/-- Claim C4 witness: `"AB123"` matches the component-identifier shape and is
classified `DataCandidate`. -/
theorem c4_heading_never_component_id_witness :
    classify "AB123".toList = LineClass.dataCandidate :=
  (c4_heading_never_component_id "AB123".toList).2 (by decide)

/-- Claim C5: feeding the SectionTracker the heading sequence `"BOILERS0"`
then `"Combi Natural Gas0"` from the empty state yields section `"BOILERS"`
and subsection `"Combi Natural Gas"`, the trailing `"0"` stripped from both. -/
theorem c5_tracker_heading_sequence :
    trackerStep (trackerStep ⟨[], []⟩ "BOILERS0".toList) "Combi Natural Gas0".toList =
      ⟨"BOILERS".toList, "Combi Natural Gas".toList⟩ := by
  decide

/-- Claim C6: the Router on section `"Boilers"`, subsection
`"Combi Natural Gas"` resolves to `boilers_combi_ng.csv`, not
`boilers_combi_lpg.csv` (rules are scanned in table order, first success
wins). -/
theorem c6_router_first_match_wins :
    determine_output_file "Boilers".toList "Combi Natural Gas".toList =
      "boilers_combi_ng.csv".toList ∧
    determine_output_file "Boilers".toList "Combi Natural Gas".toList ≠
      "boilers_combi_lpg.csv".toList := by
  decide

/-- Claim C7: every record the row parser constructs has a strictly positive
selling price and a nonnegative lead time. -/
theorem c7_record_invariants (text current_section current_subsection : Str)
    (r : PriceRecord)
    (h : parse_component_row text current_section current_subsection = some r) :
    0 < r.selling_price_gbp ∧ 0 ≤ r.lead_time_days := by
  simp only [parse_component_row] at h
  split at h
  · simp at h
  · split at h
    · simp at h
    · split at h
      · simp at h
      · split at h
        · simp at h
        · next hp =>
          split at h
          · simp at h
          · injection h with h
            subst h
            exact ⟨lt_of_le_of_ne (extract_price_nonneg _) (fun he => hp he.symm),
              extract_lead_time_nonneg _⟩

/-- Claim C7 witness: the record parsed from `"AB1 widget £5.00 3"` has
price `5 > 0` and lead time `3 ≥ 0`. -/
theorem c7_record_invariants_witness :
    0 < ((⟨[], [], "AB1".toList, "widget".toList, 5, 3⟩ : PriceRecord)).selling_price_gbp ∧
    0 ≤ ((⟨[], [], "AB1".toList, "widget".toList, 5, 3⟩ : PriceRecord)).lead_time_days :=
  c7_record_invariants "AB1 widget £5.00 3".toList [] [] _ (by decide)

/-- Claim C8: the row parser on `"ABC123 Some description £1,234.56 14"`
(under any section state) returns componentId `"ABC123"`, price `1234.56`
(thousands separator removed), lead time `14`, and description
`"Some description"` (the trimmed text strictly between the component id and
the matched price). -/
theorem c8_rowparser_concrete (current_section current_subsection : Str) :
    parse_component_row "ABC123 Some description £1,234.56 14".toList
        current_section current_subsection =
      some ⟨current_section, current_subsection, "ABC123".toList,
        "Some description".toList, (1234.56 : ℚ), 14⟩ := by
  have hq : (1234.56 : ℚ) = mkRat 123456 100 := by norm_num
  rw [hq]
  rfl

/-- Claim C9: a heading whose cleaned label is not a major-section marker,
arriving while the current section is non-empty, updates only the subsection;
and any line not classified `Heading` leaves the section state unchanged. -/
theorem c9_frame_effects (s : SectionState) (line : Str) :
    (classify line = LineClass.heading →
      MAJOR_SECTIONS.any (fun ms => isSubstr ms (upperL (trim (rstrip0 (trim line))))) = false →
      s.currentSection ≠ [] →
      (lineStep s line).1 = ⟨s.currentSection, trim (rstrip0 (trim line))⟩)
  ∧ (classify line ≠ LineClass.heading → (lineStep s line).1 = s) := by
  constructor
  · intro h1 h2 h3
    have hemp : s.currentSection.isEmpty = false := by
      cases hcs : s.currentSection with
      | nil => exact absurd hcs h3
      | cons a t => rfl
    simp only [lineStep, h1, trackerStep, h2, hemp, Bool.or_self]
    rfl
  · intro h1
    cases hc : classify line with
    | skip => simp [lineStep, hc]
    | heading => exact absurd hc h1
    | dataCandidate =>
      simp only [lineStep, hc]
      cases parse_component_row (trim line) s.currentSection s.currentSubsection <;> rfl

/-- Claim C9 witness: with current section `"BOILERS"`, the non-major heading
`"Combi Natural Gas0"` sets only the subsection. -/
theorem c9_frame_effects_witness :
    (lineStep ⟨"BOILERS".toList, []⟩ "Combi Natural Gas0".toList).1 =
      ⟨"BOILERS".toList, "Combi Natural Gas".toList⟩ :=
  (c9_frame_effects ⟨"BOILERS".toList, []⟩ "Combi Natural Gas0".toList).1
    (by decide) (by decide) (by decide)

/-- Claim C10: a line that whitespace-tokenizes into fewer than 3 tokens is
rejected by the row parser, whatever the section state. -/
theorem c10_short_line_rejected (line current_section current_subsection : Str)
    (h : (splitWs (trim line)).length < 3) :
    parse_component_row line current_section current_subsection = none := by
  simp only [parse_component_row]
  rw [if_pos h]

/-- Claim C10 witness: `"AB12 £5"` has two tokens and is rejected. -/
theorem c10_short_line_rejected_witness :
    parse_component_row "AB12 £5".toList [] [] = none :=
  c10_short_line_rejected "AB12 £5".toList [] [] (by decide)
